import Mathlib

/-!
Verification of the forex-trade repository: a shallow embedding in Lean 4 of
the risk manager (src/lib/trading/risk-management/index.js), the technical
indicator library, the DCA strategy (src/lib/trading/strategies/dca.js) and
the grid strategy.  JavaScript numbers are modelled by exact rationals; the
few places where IEEE special values (Infinity, NaN) matter are modelled
explicitly and documented at the definition.
-/

/-- Trade direction, the BUY / SELL strings of the source. -/
inductive Direction where
  | BUY
  | SELL
deriving DecidableEq, Repr

namespace RiskManager

/-- Configuration of the RiskManager constructor, with the source defaults.
The source field minRiskRewardRatio is called minRiskReward here. -/
structure RiskConfig where
  maxRiskPerTrade : ℚ := 2/100
  maxDailyRisk : ℚ := 5/100
  maxDrawdown : ℚ := 15/100
  maxPositions : Nat := 5
  maxLeverage : ℚ := 10
  minRiskReward : ℚ := 3/2
  stopLossPercentage : ℚ := 2/100
  takeProfitPercentage : ℚ := 4/100
  trailingStopPercentage : ℚ := 1/100
  correlationLimit : ℚ := 7/10
  volatilityMultiplier : ℚ := 2
  accountBalance : ℚ := 10000
deriving DecidableEq, Repr

/-- A trading signal as consumed by the risk manager; metadata.atr is
modelled as an optional field. -/
structure Signal where
  symbol : String
  direction : Direction
  entryPrice : ℚ
  stopLoss : ℚ
  takeProfit : ℚ
  lotSize : ℚ
  atr : Option ℚ := none
deriving DecidableEq, Repr

/-- An open or closed position as stored in the positions map. -/
structure Position where
  symbol : String
  direction : Direction
  entryPrice : ℚ
  stopLoss : ℚ
  lotSize : ℚ
  status : String
deriving DecidableEq, Repr

/-- The mutable instance state of a RiskManager: config plus the tracking
fields set in the constructor.  dailyLosses entries are (date, totalRisk). -/
structure RiskState where
  config : RiskConfig
  dailyLosses : List (String × ℚ) := []
  currentDrawdown : ℚ := 0
  maxDrawdownReached : ℚ := 0
  dailyRiskUsed : ℚ := 0
deriving DecidableEq, Repr

/-- checkMaxPositions: passes while strictly fewer than maxPositions
positions have status open.  Only the passed flag of the source record is
modelled; the reason string is dropped. -/
def checkMaxPositions (cfg : RiskConfig) (currentPositions : List Position) : Bool :=
  decide ((currentPositions.filter (fun p => p.status == "open")).length < cfg.maxPositions)

/-- checkDailyRisk: passes while dailyRiskUsed is below maxDailyRisk. -/
def checkDailyRisk (s : RiskState) : Bool :=
  decide (s.dailyRiskUsed < s.config.maxDailyRisk)

/-- checkDrawdown: passes while currentDrawdown is below maxDrawdown. -/
def checkDrawdown (s : RiskState) : Bool :=
  decide (s.currentDrawdown < s.config.maxDrawdown)

/-- checkRiskRewardRatio: the source computes ratio = reward / risk with IEEE
division.  When risk = 0 the IEEE ratio is +Infinity (passes any rational
threshold) if reward > 0, and NaN (fails the >= comparison) if reward = 0;
otherwise the ratio is the exact rational quotient. -/
def checkRiskReward (cfg : RiskConfig) (signal : Signal) : Bool :=
  let risk := |signal.entryPrice - signal.stopLoss|
  let reward := |signal.takeProfit - signal.entryPrice|
  if risk = 0 then decide (0 < reward)
  else decide (reward / risk ≥ cfg.minRiskReward)

/-- calculateCorrelation: lookup in the hard-coded correlation table, trying
the pair in both orders, defaulting to 0.  (The source uses || fallthrough;
no table value is 0, so an ordinary lookup is equivalent.) -/
def calculateCorrelation (symbol1 symbol2 : String) : ℚ :=
  let correlationMap : List (String × ℚ) :=
    [("EURUSD_GBPUSD", 8/10),
     ("EURUSD_EURGBP", 6/10),
     ("GBPUSD_EURGBP", -7/10),
     ("USDJPY_EURJPY", 75/100),
     ("AUDUSD_NZDUSD", 85/100)]
  match correlationMap.lookup (symbol1 ++ "_" ++ symbol2) with
  | some c => c
  | none =>
    match correlationMap.lookup (symbol2 ++ "_" ++ symbol1) with
    | some c => c
    | none => 0

/-- checkPositionCorrelation: fails on a position in the same symbol or one
whose correlation exceeds correlationLimit; otherwise passes. -/
def checkPositionCorrelation (cfg : RiskConfig) (signal : Signal)
    (currentPositions : List Position) : Bool :=
  currentPositions.all fun p =>
    !(p.symbol == signal.symbol) &&
    decide (calculateCorrelation signal.symbol p.symbol ≤ cfg.correlationLimit)

/-- checkVolatility: metadata.atr (defaulting to 0) must not exceed 5% of the
entry price. -/
def checkVolatility (signal : Signal) : Bool :=
  let volatility := signal.atr.getD 0
  decide (volatility ≤ signal.entryPrice * (5/100))

/-- checkLeverage: notional over balance must not exceed maxLeverage. -/
def checkLeverage (cfg : RiskConfig) (signal : Signal) : Bool :=
  decide (signal.lotSize * signal.entryPrice / cfg.accountBalance ≤ cfg.maxLeverage)

/-- calculatePositionSize: fixed-fractional size riskAmount / stop distance,
guarded against a zero distance, then clamped by the 10%-of-balance cap and
the leverage cap (Math.min of the three). -/
def calculatePositionSize (cfg : RiskConfig) (signal : Signal) : ℚ :=
  let riskAmount := cfg.accountBalance * cfg.maxRiskPerTrade
  let stopLossDistance := |signal.entryPrice - signal.stopLoss|
  if stopLossDistance = 0 then 0
  else
    let positionSize := riskAmount / stopLossDistance
    let maxPositionByBalance := cfg.accountBalance * (1/10)
    let maxPositionByLeverage := cfg.accountBalance * cfg.maxLeverage / signal.entryPrice
    min positionSize (min maxPositionByBalance maxPositionByLeverage)

/-- calculateRiskAmount: size times stop distance. -/
def calculateRiskAmount (signal : Signal) (positionSize : ℚ) : ℚ :=
  positionSize * |signal.entryPrice - signal.stopLoss|

/-- calculateLotSize: unclamped fixed-fractional size.  The source default
riskPercentage = null is taken over by || when the argument is null or 0
(both are falsy in JavaScript). -/
def calculateLotSize (cfg : RiskConfig) (entryPrice stopLoss : ℚ)
    (riskPercentage : Option ℚ) : ℚ :=
  let risk := match riskPercentage with
    | some r => if r = 0 then cfg.maxRiskPerTrade else r
    | none => cfg.maxRiskPerTrade
  let riskAmount := cfg.accountBalance * risk
  let stopLossDistance := |entryPrice - stopLoss|
  if stopLossDistance = 0 then 0
  else riskAmount / stopLossDistance

/-- The enriched signal returned by a successful validateSignal. -/
structure ValidatedSignal where
  signal : Signal
  lotSize : ℚ
  riskAmount : ℚ
  validatedAt : String
deriving DecidableEq, Repr

/-- validateSignal: runs the seven checks, returns null when any fails, else
the signal enriched with the computed position size.  The method body
assigns to no instance field, so the returned state (second component) is
the state the call received; the impure timestamp is passed in as now. -/
def validateSignal (s : RiskState) (signal : Signal) (currentPositions : List Position)
    (now : String) : Option ValidatedSignal × RiskState :=
  let validations : List Bool :=
    [checkMaxPositions s.config currentPositions,
     checkDailyRisk s,
     checkDrawdown s,
     checkRiskReward s.config signal,
     checkPositionCorrelation s.config signal currentPositions,
     checkVolatility signal,
     checkLeverage s.config signal]
  let failedValidations := validations.filter (fun v => !v)
  if failedValidations.length > 0 then (none, s)
  else
    let positionSize := calculatePositionSize s.config signal
    (some { signal := signal
            lotSize := positionSize
            riskAmount := calculateRiskAmount signal positionSize
            validatedAt := now }, s)

/-- updateDailyRisk: appends to or extends the last dailyLosses entry for
today and recomputes dailyRiskUsed; keeps at most the last 30 entries. -/
def updateDailyRisk (s : RiskState) (riskAmount : ℚ) (today : String) : RiskState :=
  let updated :=
    match s.dailyLosses.getLast? with
    | none =>
      { s with dailyLosses := s.dailyLosses ++ [(today, riskAmount)]
               dailyRiskUsed := riskAmount / s.config.accountBalance }
    | some (d, totalRisk) =>
      if d ≠ today then
        { s with dailyLosses := s.dailyLosses ++ [(today, riskAmount)]
                 dailyRiskUsed := riskAmount / s.config.accountBalance }
      else
        { s with dailyLosses := s.dailyLosses.dropLast ++ [(d, totalRisk + riskAmount)]
                 dailyRiskUsed := (totalRisk + riskAmount) / s.config.accountBalance }
  if updated.dailyLosses.length > 30 then
    { updated with dailyLosses := updated.dailyLosses.drop (updated.dailyLosses.length - 30) }
  else updated

/-- calculateTrailingStop: for BUY the new stop is the max of the old stop
and price minus atr times volatilityMultiplier; for the other direction the
min of the old stop and price plus that distance. -/
def calculateTrailingStop (cfg : RiskConfig) (position : Position)
    (currentPrice atr : ℚ) : ℚ :=
  let trailingDistance := atr * cfg.volatilityMultiplier
  if position.direction = Direction.BUY then
    max position.stopLoss (currentPrice - trailingDistance)
  else
    min position.stopLoss (currentPrice + trailingDistance)

end RiskManager

namespace TechnicalIndicators

/-- sma: the source loops i from period - 1 to data.length - 1 pushing the
mean of data.slice(i - period + 1, i + 1); with window start j = i -
(period - 1) that slice is (data.drop j).take period.  The per-instance
memo cache is keyed on values that determine the result, so it is dropped.
(For period = 0 the source would emit NaN entries; all claims have
period >= 1.) -/
def sma (data : List ℚ) (period : Nat) : List ℚ :=
  (List.range (data.length + 1 - period)).map
    (fun j => ((data.drop j).take period).sum / (period : ℚ))

/-- ema: seeded with the first element, then result[i] = data[i] *
multiplier + result[i-1] * (1 - multiplier) with multiplier 2/(period+1);
the period performs no windowing.  (On empty input the source returns the
one-element series [undefined]; that case is left empty here and no result
below rests on it.) -/
def ema (data : List ℚ) (period : Nat) : List ℚ :=
  match data with
  | [] => []
  | d :: rest =>
    let multiplier : ℚ := 2 / ((period : ℚ) + 1)
    rest.scanl (fun prev x => x * multiplier + prev * (1 - multiplier)) d

/-- A JavaScript number that is either an actual (rational) value or NaN,
for indicator outputs where an IEEE 0/0 can surface. -/
inductive JVal where
  | num (x : ℚ)
  | nan
deriving DecidableEq, Repr

/-- gains: the positive one-step changes of the series (0 elsewhere),
length one less than the input. -/
def gains (data : List ℚ) : List ℚ :=
  (data.tail.zip data).map (fun p => if p.1 - p.2 > 0 then p.1 - p.2 else 0)

/-- losses: the absolute negative one-step changes (0 elsewhere). -/
def losses (data : List ℚ) : List ℚ :=
  (data.tail.zip data).map (fun p => if p.1 - p.2 < 0 then |p.1 - p.2| else 0)

/-- rsiValue: the source computes 100 - 100/(1 + gain/loss) in IEEE
arithmetic over the nonnegative averages.  loss = 0 makes the inner ratio
non-finite: with gain different from 0 it is an infinity and the expression
collapses to 100; with gain = 0 it is 0/0 = NaN, which propagates. -/
def rsiValue (gain loss : ℚ) : JVal :=
  if loss = 0 then
    if gain = 0 then JVal.nan else JVal.num 100
  else JVal.num (100 - 100 / (1 + gain / loss))

/-- rsi: pairs the sma of gains with the sma of losses (equal lengths) and
maps rsiValue over them. -/
def rsi (data : List ℚ) (period : Nat) : List JVal :=
  let avgGains := sma (gains data) period
  let avgLosses := sma (losses data) period
  (avgGains.zip avgLosses).map (fun p => rsiValue p.1 p.2)

end TechnicalIndicators

namespace DCAStrategy

/-- The DCA configuration fields exercised by the deal logic, with the
source defaults (percentages kept in percent units, as in the source). -/
structure DCAConfig where
  baseOrderSize : ℚ := 1/10
  safetyOrderSize : ℚ := 1/5
  priceDeviation : ℚ := 5/2
  safetyOrderStepScale : ℚ := 21/20
  safetyOrderVolumeScale : ℚ := 6/5
  takeProfitPercentage : ℚ := 3
  maxSafetyOrders : Nat := 5
  stopLossPercentage : ℚ := 15
deriving DecidableEq, Repr

/-- A safety-order signal as produced by createSafetyOrder (the fields the
deal update reads). -/
structure SafetyOrderSignal where
  safetyOrderNumber : Nat
  entryPrice : ℚ
  lotSize : ℚ
deriving DecidableEq, Repr

/-- A deal as tracked in activeDeals; baseEntryPrice is baseOrder.entryPrice. -/
structure Deal where
  symbol : String
  baseEntryPrice : ℚ
  safetyOrders : List SafetyOrderSignal
  totalVolume : ℚ
  averagePrice : ℚ
  totalInvested : ℚ
  takeProfitPrice : ℚ
  stopLossPrice : Option ℚ
  maxSafetyOrders : Nat
  nextSafetyOrderPrice : ℚ
  safetyOrderCount : Nat
deriving DecidableEq, Repr

/-- calculateNextSafetyOrderPrice: cumulative deviation deviation *
stepScale^(i-1) for i = 1..n, applied below basePrice. -/
def calculateNextSafetyOrderPrice (cfg : DCAConfig) (basePrice : ℚ)
    (safetyOrderNumber : Nat) : ℚ :=
  let totalDeviation :=
    ((List.range safetyOrderNumber).map
      (fun i => cfg.priceDeviation * cfg.safetyOrderStepScale ^ i)).sum
  basePrice * (1 - totalDeviation / 100)

/-- createBaseOrder, restricted to the deal record it installs in
activeDeals: volume and invested from the base order at the close price,
safety-order counters zeroed.  The stop loss is null when
stopLossPercentage is falsy. -/
def createBaseDeal (cfg : DCAConfig) (symbol : String) (close : ℚ) : Deal :=
  { symbol := symbol
    baseEntryPrice := close
    safetyOrders := []
    totalVolume := cfg.baseOrderSize
    averagePrice := close
    totalInvested := close * cfg.baseOrderSize
    takeProfitPrice := close * (1 + cfg.takeProfitPercentage / 100)
    stopLossPrice := if cfg.stopLossPercentage = 0 then none
      else some (close * (1 - cfg.stopLossPercentage / 100))
    maxSafetyOrders := cfg.maxSafetyOrders
    nextSafetyOrderPrice := calculateNextSafetyOrderPrice cfg close 1
    safetyOrderCount := 0 }

/-- createSafetyOrder: order number count + 1, volume scaled by
safetyOrderVolumeScale^(number - 1). -/
def createSafetyOrder (cfg : DCAConfig) (deal : Deal) (currentPrice : ℚ) :
    SafetyOrderSignal :=
  let safetyOrderNumber := deal.safetyOrderCount + 1
  { safetyOrderNumber := safetyOrderNumber
    entryPrice := currentPrice
    lotSize := cfg.safetyOrderSize * cfg.safetyOrderVolumeScale ^ (safetyOrderNumber - 1) }

/-- addSafetyOrder: folds the order into the running volume / invested
totals, recomputes the average price and take profit from them, and, while
more safety orders remain, the next trigger price. -/
def addSafetyOrder (cfg : DCAConfig) (deal : Deal) (safetyOrder : SafetyOrderSignal) :
    Deal :=
  let newTotalVolume := deal.totalVolume + safetyOrder.lotSize
  let newTotalInvested := deal.totalInvested + safetyOrder.entryPrice * safetyOrder.lotSize
  let newAveragePrice := newTotalInvested / newTotalVolume
  { deal with
    safetyOrders := deal.safetyOrders ++ [safetyOrder]
    safetyOrderCount := deal.safetyOrderCount + 1
    totalVolume := newTotalVolume
    totalInvested := newTotalInvested
    averagePrice := newAveragePrice
    takeProfitPrice := newAveragePrice * (1 + cfg.takeProfitPercentage / 100)
    nextSafetyOrderPrice :=
      if deal.safetyOrderCount + 1 < deal.maxSafetyOrders then
        calculateNextSafetyOrderPrice cfg deal.baseEntryPrice (deal.safetyOrderCount + 1 + 1)
      else deal.nextSafetyOrderPrice }

/-- stopLossHit: the procesActiveDeals stop-loss test
deal.stopLossPrice && close <= deal.stopLossPrice. -/
def stopLossHit (deal : Deal) (close : ℚ) : Bool :=
  match deal.stopLossPrice with
  | some sl => decide (close ≤ sl)
  | none => false

/-- Deals reachable by the procesActiveDeals safety-order path: a fresh base
deal, or a reachable deal to which a safety order is added when the close
neither takes profit nor hits the stop, the safety-order budget is not
exhausted, and the close is at or below the next trigger price. -/
inductive DealReachable (cfg : DCAConfig) : Deal → Prop where
  | base : ∀ symbol close, DealReachable cfg (createBaseDeal cfg symbol close)
  | safety : ∀ deal close, DealReachable cfg deal →
      close < deal.takeProfitPrice →
      stopLossHit deal close = false →
      deal.safetyOrderCount < deal.maxSafetyOrders →
      close ≤ deal.nextSafetyOrderPrice →
      DealReachable cfg (addSafetyOrder cfg deal (createSafetyOrder cfg deal close))

end DCAStrategy

namespace GridStrategy

/-- The grid configuration fields the level and order generation read, with
the source defaults.  centerPrice is set by initializeGrid before levels
are generated, so it is a plain rational here. -/
structure GridConfig where
  gridLevels : Nat := 10
  gridOrderSize : ℚ := 1/10
  martingaleMultiplier : ℚ := 1
  centerPrice : ℚ := 0
deriving DecidableEq, Repr

/-- One entry of this.gridLevels. -/
structure GridLevel where
  id : String
  price : ℚ
  level : Nat
  type : String
  orderType : Direction
deriving DecidableEq, Repr

/-- One entry of this.gridOrders. -/
structure GridOrder where
  symbol : String
  level : Nat
  direction : Direction
  entryPrice : ℚ
  lotSize : ℚ
  status : String
deriving DecidableEq, Repr

/-- generateGridLevels, arithmetic branch: gridLevels evenly spaced prices
from lower to upper with spacing (upper - lower)/(gridLevels - 1); the
first and last are tagged as bounds, and orders below the center price buy.
(The geometric branch raises upper/lower to a fractional power and is not
exercised by any claim.) -/
def generateGridLevels (cfg : GridConfig) (lower upper : ℚ) : List GridLevel :=
  let totalRange := upper - lower
  let spacing := totalRange / ((cfg.gridLevels : ℚ) - 1)
  (List.range cfg.gridLevels).map fun (i : Nat) =>
    { id := "grid_" ++ toString i
      price := lower + spacing * (i : ℚ)
      level := i
      type := if i = 0 then "lower_bound"
        else if i = cfg.gridLevels - 1 then "upper_bound" else "grid"
      orderType := if lower + spacing * (i : ℚ) < cfg.centerPrice then Direction.BUY
        else Direction.SELL }

/-- calculateGridOrderSize: gridOrderSize, scaled by martingaleMultiplier
to the power of the level distance from the floor-half center level when
the multiplier is not 1. -/
def calculateGridOrderSize (cfg : GridConfig) (level : GridLevel) : ℚ :=
  let baseSize := cfg.gridOrderSize
  if cfg.martingaleMultiplier ≠ 1 then
    let distanceFromCenter := ((level.level : ℤ) - (cfg.gridLevels / 2 : Nat)).natAbs
    baseSize * cfg.martingaleMultiplier ^ distanceFromCenter
  else baseSize

/-- initializeGridOrders: one pending order per level that is neither the
lower nor the upper bound, at the level price and direction. -/
def initializeGridOrders (cfg : GridConfig) (symbol : String)
    (gridLevels : List GridLevel) : List GridOrder :=
  (gridLevels.filter fun l =>
      !(l.type == "lower_bound") && !(l.type == "upper_bound")).map fun l =>
    { symbol := symbol
      level := l.level
      direction := l.orderType
      entryPrice := l.price
      lotSize := calculateGridOrderSize cfg l
      status := "pending" }

end GridStrategy

namespace RiskManager

/-- Helper: a failing max-positions or risk-reward check makes validateSignal
return null, whatever the other checks say. -/
lemma validateSignal_none_of_check_false (s : RiskState) (signal : Signal)
    (currentPositions : List Position) (now : String)
    (h : checkMaxPositions s.config currentPositions = false ∨
      checkRiskReward s.config signal = false) :
    (validateSignal s signal currentPositions now).1 = none := by
  have hmem : false ∈
      [checkMaxPositions s.config currentPositions,
       checkDailyRisk s,
       checkDrawdown s,
       checkRiskReward s.config signal,
       checkPositionCorrelation s.config signal currentPositions,
       checkVolatility signal,
       checkLeverage s.config signal] := by
    rcases h with h | h <;> rw [← h] <;> simp
  have hlen : 0 <
      ([checkMaxPositions s.config currentPositions,
        checkDailyRisk s,
        checkDrawdown s,
        checkRiskReward s.config signal,
        checkPositionCorrelation s.config signal currentPositions,
        checkVolatility signal,
        checkLeverage s.config signal].filter (fun v => !v)).length := by
    exact List.length_pos.mpr (List.ne_nil_of_mem (List.mem_filter.mpr ⟨hmem, rfl⟩))
  simp only [validateSignal]
  rw [if_pos hlen]

/-- C3: validateSignal returns null whenever the reward-to-risk quotient of
the signal is strictly below minRiskRewardRatio (with a nonzero stop
distance, so that the quotient the source computes is finite), and likewise
whenever at least maxPositions of the current positions are open, regardless
of the other fields of the signal. -/
theorem validateSignal_rejects (s : RiskState) (signal : Signal)
    (currentPositions : List Position) (now : String) :
    (0 < |signal.entryPrice - signal.stopLoss| →
      |signal.takeProfit - signal.entryPrice| / |signal.entryPrice - signal.stopLoss| <
        s.config.minRiskReward →
      (validateSignal s signal currentPositions now).1 = none) ∧
    (s.config.maxPositions ≤
        (currentPositions.filter (fun p => p.status == "open")).length →
      (validateSignal s signal currentPositions now).1 = none) := by
  constructor
  · intro hrisk hlt
    apply validateSignal_none_of_check_false
    right
    simp only [checkRiskReward, if_neg hrisk.ne']
    simpa using not_le.mpr hlt
  · intro hmax
    apply validateSignal_none_of_check_false
    left
    simp only [checkMaxPositions]
    simpa using not_lt.mpr hmax

/-- An example signal whose reward-to-risk quotient is 1/2, below the
default threshold 3/2. -/
def lowRewardSignal : Signal :=
  { symbol := "EURUSD", direction := Direction.BUY, entryPrice := 1,
    stopLoss := 1/2, takeProfit := 5/4, lotSize := 1/10 }

/-- Five open positions, saturating the default maxPositions = 5. -/
def fiveOpenPositions : List Position :=
  List.replicate 5
    { symbol := "EURUSD", direction := Direction.BUY, entryPrice := 1,
      stopLoss := 1/2, lotSize := 1/10, status := "open" }

theorem validateSignal_rejects_witness :
    (validateSignal { config := {} } lowRewardSignal [] "t").1 = none ∧
    (validateSignal { config := {} } lowRewardSignal fiveOpenPositions "t").1 = none :=
  ⟨(validateSignal_rejects { config := {} } lowRewardSignal [] "t").1
      (by norm_num [lowRewardSignal]) (by norm_num [lowRewardSignal, abs_of_pos]),
   (validateSignal_rejects { config := {} } lowRewardSignal fiveOpenPositions "t").2
      (by simp [fiveOpenPositions])⟩

/-- C9: validateSignal is read-only on the RiskManager state: the state after
the call (config, dailyLosses, currentDrawdown, maxDrawdownReached and
dailyRiskUsed) is the state it received, whether the signal is validated or
rejected; only updateDailyRisk consumes the daily risk budget. -/
theorem validateSignal_preserves_state (s : RiskState) (signal : Signal)
    (currentPositions : List Position) (now : String) :
    (validateSignal s signal currentPositions now).2 = s := by
  simp only [validateSignal]
  split <;> rfl

/-- C7: calculateTrailingStop never loosens an existing stop: for a BUY
position the result is at least the current stopLoss, for a SELL position at
most the current stopLoss, for every price and ATR. -/
theorem calculateTrailingStop_monotone (cfg : RiskConfig) (position : Position)
    (currentPrice atr : ℚ) :
    (position.direction = Direction.BUY →
      position.stopLoss ≤ calculateTrailingStop cfg position currentPrice atr) ∧
    (position.direction = Direction.SELL →
      calculateTrailingStop cfg position currentPrice atr ≤ position.stopLoss) := by
  constructor
  · intro h
    simp only [calculateTrailingStop, if_pos h]
    exact le_max_left _ _
  · intro h
    have hne : position.direction ≠ Direction.BUY := by rw [h]; intro hc; cases hc
    simp only [calculateTrailingStop, if_neg hne]
    exact min_le_left _ _

/-- An example BUY position with a stop already set. -/
def buyPositionExample : Position :=
  { symbol := "EURUSD", direction := Direction.BUY, entryPrice := 1,
    stopLoss := 1/2, lotSize := 1/10, status := "open" }

/-- An example SELL position with a stop already set. -/
def sellPositionExample : Position :=
  { symbol := "EURUSD", direction := Direction.SELL, entryPrice := 1,
    stopLoss := 3/2, lotSize := 1/10, status := "open" }

theorem calculateTrailingStop_monotone_witness :
    buyPositionExample.stopLoss ≤ calculateTrailingStop {} buyPositionExample 2 1 ∧
    calculateTrailingStop {} sellPositionExample 2 1 ≤ sellPositionExample.stopLoss :=
  ⟨(calculateTrailingStop_monotone {} buyPositionExample 2 1).1 rfl,
   (calculateTrailingStop_monotone {} sellPositionExample 2 1).2 rfl⟩

/-- C10: when the stop loss coincides with the entry price (zero stop
distance), both sizing functions return 0 instead of dividing by zero. -/
theorem positionSize_zero_distance (cfg : RiskConfig) (signal : Signal)
    (riskPercentage : Option ℚ) (h : signal.stopLoss = signal.entryPrice) :
    calculatePositionSize cfg signal = 0 ∧
    calculateLotSize cfg signal.entryPrice signal.stopLoss riskPercentage = 0 := by
  constructor
  · simp [calculatePositionSize, h]
  · simp [calculateLotSize, h]

/-- An example signal whose stop loss equals its entry price. -/
def zeroDistanceSignal : Signal :=
  { symbol := "EURUSD", direction := Direction.BUY, entryPrice := 2,
    stopLoss := 2, takeProfit := 3, lotSize := 1/10 }

theorem positionSize_zero_distance_witness :
    calculatePositionSize {} zeroDistanceSignal = 0 ∧
    calculateLotSize {} zeroDistanceSignal.entryPrice zeroDistanceSignal.stopLoss none = 0 :=
  positionSize_zero_distance {} zeroDistanceSignal none rfl

/-- The Scenario D signal: accountBalance 10000 and maxRiskPerTrade 2% are
the defaults; entry 1.1000, stop 1.0950. -/
def scenarioDSignal : Signal :=
  { symbol := "EURUSD", direction := Direction.BUY, entryPrice := 11/10,
    stopLoss := 219/200, takeProfit := 0, lotSize := 0 }

/-- C1 counterexample: the position size calculatePositionSize returns for
the Scenario D inputs does not satisfy lotSize * 0.0050 = 200; the clamp by
the 10%-of-balance cap returns 1000, whose risk is 5. -/
theorem scenarioD_risk_not_exact :
    ¬ (calculatePositionSize {} scenarioDSignal * (5/1000) = 200) := by
  have h : calculatePositionSize {} scenarioDSignal = 1000 := by
    norm_num [calculatePositionSize, scenarioDSignal, min_def, abs_of_pos]
  rw [h]
  norm_num

/-- C1 amended: the unclamped fixed-fractional size (calculateLotSize, and
the riskAmount / stopLossDistance quotient inside calculatePositionSize)
respects the risk amount exactly, 40000 * 0.0050 = 200; but
calculatePositionSize then clamps by min with the 10%-of-balance cap 1000
and the leverage cap, and returns 1000 for Scenario D. -/
theorem scenarioD_clamped_size :
    calculateLotSize {} (11/10) (219/200) none = 40000 ∧
    calculateLotSize {} (11/10) (219/200) none * (5/1000) = 200 ∧
    calculatePositionSize {} scenarioDSignal = 1000 := by
  have h1 : calculateLotSize {} (11/10) (219/200) none = 40000 := by
    norm_num [calculateLotSize, abs_of_pos]
  have h2 : calculatePositionSize {} scenarioDSignal = 1000 := by
    norm_num [calculatePositionSize, scenarioDSignal, min_def, abs_of_pos]
  exact ⟨h1, by rw [h1]; norm_num, h2⟩

end RiskManager

namespace TechnicalIndicators

/-- C4 counterexample: on the three-element input [1, 2, 3] with period 2,
ema does not have length input.length - period + 1 = 2; the ema loop runs
over the whole input and yields 3 values. -/
theorem ema_length_counterexample :
    ¬ ((ema [(1:ℚ), 2, 3] 2).length = [(1:ℚ), 2, 3].length - 2 + 1) := by
  simp [ema, List.length_scanl]

/-- C4 amended: for 1 <= period <= input.length the sma output has length
input.length - period + 1 with output j the mean of the window starting at
input j (so output j corresponds to input (j + period - 1)); ema performs no
windowing: its output has length input.length and starts at input 0 (it is
seeded with the first value). -/
theorem sma_ema_lengths (data : List ℚ) (period : Nat)
    (h1 : 1 ≤ period) (h2 : period ≤ data.length) :
    (sma data period).length = data.length - period + 1 ∧
    (ema data period).length = data.length ∧
    (ema data period).head? = data.head? := by
  refine ⟨?_, ?_, ?_⟩
  · simp only [sma, List.length_map, List.length_range]
    omega
  · cases data with
    | nil => simp at h2; omega
    | cons d rest => simp [ema, List.length_scanl]
  · cases data with
    | nil => simp at h2; omega
    | cons d rest => cases rest <;> simp [ema, List.scanl]

theorem sma_ema_lengths_witness :
    (sma [(1:ℚ), 2, 3] 2).length = [(1:ℚ), 2, 3].length - 2 + 1 ∧
    (ema [(1:ℚ), 2, 3] 2).length = [(1:ℚ), 2, 3].length ∧
    (ema [(1:ℚ), 2, 3] 2).head? = [(1:ℚ), 2, 3].head? :=
  sma_ema_lengths [(1:ℚ), 2, 3] 2 (by norm_num) (by norm_num)

/-- C5 counterexample: ema on the one-element input [5] with period 14
(less history than the period) does not return the empty series: it returns
[5]. -/
theorem ema_short_input_not_empty :
    ¬ (ema [(5:ℚ)] 14 = []) := by
  simp [ema]

/-- C5 amended: on input with fewer elements than the period, sma returns
the empty series (and no computation can throw); ema ignores the period and
returns one value per input element even then. -/
theorem short_input_behavior (data : List ℚ) (period : Nat)
    (h1 : 1 ≤ period) (h2 : data.length < period) :
    sma data period = [] ∧
    (data ≠ [] → (ema data period).length = data.length) := by
  constructor
  · have h0 : data.length + 1 - period = 0 := by omega
    simp [sma, h0]
  · intro hne
    cases data with
    | nil => exact absurd rfl hne
    | cons d rest => simp [ema, List.length_scanl]

theorem short_input_behavior_witness :
    sma [(5:ℚ)] 14 = [] ∧
    ([(5:ℚ)] ≠ [] → (ema [(5:ℚ)] 14).length = [(5:ℚ)].length) :=
  short_input_behavior [(5:ℚ)] 14 (by norm_num) (by norm_num)

/-- C6 counterexample: on the flat series [5, 5] with period 1 every change
is zero, the average gain and loss are both 0, the source rs = 0/0 is NaN
and the RSI value is NaN, which is not a number in [0, 100]. -/
theorem rsi_flat_series_nan :
    ¬ (∀ v ∈ rsi [(5:ℚ), 5] 1,
        ∃ x, v = JVal.num x ∧ 0 ≤ x ∧ x ≤ 100) := by
  intro h
  have hmem : JVal.nan ∈ rsi [(5:ℚ), 5] 1 := by
    norm_num [rsi, gains, losses, sma, rsiValue, List.range_succ]
  obtain ⟨x, hx, hxr⟩ := h JVal.nan hmem
  exact JVal.noConfusion hx

/-- Helper: every element of an sma over a pointwise nonnegative series is
nonnegative. -/
lemma sma_nonneg (data : List ℚ) (period : Nat) (h : ∀ x ∈ data, 0 ≤ x) :
    ∀ y ∈ sma data period, 0 ≤ y := by
  intro y hy
  simp only [sma, List.mem_map, List.mem_range] at hy
  obtain ⟨j, hj, rfl⟩ := hy
  apply div_nonneg
  · apply List.sum_nonneg
    intro x hx
    exact h x (List.mem_of_mem_drop (List.mem_of_mem_take hx))
  · exact Nat.cast_nonneg period

/-- Helper: the gains series is pointwise nonnegative. -/
lemma gains_nonneg (data : List ℚ) : ∀ x ∈ gains data, 0 ≤ x := by
  intro x hx
  simp only [gains, List.mem_map] at hx
  obtain ⟨p, hp, rfl⟩ := hx
  split
  · linarith
  · exact le_refl 0

/-- Helper: the losses series is pointwise nonnegative. -/
lemma losses_nonneg (data : List ℚ) : ∀ x ∈ losses data, 0 ≤ x := by
  intro x hx
  simp only [losses, List.mem_map] at hx
  obtain ⟨p, hp, rfl⟩ := hx
  split
  · exact abs_nonneg _
  · exact le_refl 0

/-- Helper: on nonnegative inputs, rsiValue is NaN or a number in [0, 100]. -/
lemma rsiValue_range (gain loss : ℚ) (hg : 0 ≤ gain) (hl : 0 ≤ loss) :
    rsiValue gain loss = JVal.nan ∨
    ∃ x, rsiValue gain loss = JVal.num x ∧ 0 ≤ x ∧ x ≤ 100 := by
  unfold rsiValue
  split_ifs with h1 h2
  · exact Or.inl rfl
  · exact Or.inr ⟨100, rfl, by norm_num, le_refl 100⟩
  · right
    refine ⟨_, rfl, ?_, ?_⟩
    · have hl' : 0 < loss := lt_of_le_of_ne hl (Ne.symm h1)
      have hr : 0 ≤ gain / loss := div_nonneg hg hl
      have hd : 100 / (1 + gain / loss) ≤ 100 := div_le_self (by norm_num) (by linarith)
      linarith
    · have hl' : 0 < loss := lt_of_le_of_ne hl (Ne.symm h1)
      have hr : 0 ≤ gain / loss := div_nonneg hg hl
      have hd : 0 < 100 / (1 + gain / loss) := div_pos (by norm_num) (by linarith)
      linarith

/-- C6 amended: every element of the RSI series is either a number in
[0, 100] or the NaN produced when a window has zero average gain and zero
average loss (flat prices); no finite value ever leaves [0, 100]. -/
theorem rsi_range (data : List ℚ) (period : Nat) (v : JVal)
    (hv : v ∈ rsi data period) :
    v = JVal.nan ∨ ∃ x, v = JVal.num x ∧ 0 ≤ x ∧ x ≤ 100 := by
  simp only [rsi, List.mem_map] at hv
  obtain ⟨⟨a, b⟩, hp, rfl⟩ := hv
  obtain ⟨ha, hb⟩ := List.of_mem_zip hp
  exact rsiValue_range a b (sma_nonneg _ _ (gains_nonneg data) a ha)
    (sma_nonneg _ _ (losses_nonneg data) b hb)

theorem rsi_range_witness :
    JVal.num 100 ∈ rsi [(1:ℚ), 2] 1 ∧
    (JVal.num 100 = JVal.nan ∨ ∃ x, JVal.num 100 = JVal.num x ∧ 0 ≤ x ∧ x ≤ 100) :=
  ⟨by norm_num [rsi, gains, losses, sma, rsiValue, List.range_succ],
   rsi_range [(1:ℚ), 2] 1 (JVal.num 100)
    (by norm_num [rsi, gains, losses, sma, rsiValue, List.range_succ])⟩

end TechnicalIndicators

namespace DCAStrategy

/-- C2: along every procesActiveDeals-reachable sequence of safety-order
additions, the deal satisfies averagePrice = totalInvested / totalVolume
after each addition (exactly, in rational arithmetic), and
safetyOrderCount never exceeds maxSafetyOrders, because a safety order is
only added while safetyOrderCount < maxSafetyOrders. -/
theorem reachable_deal_invariants (cfg : DCAConfig) (deal : Deal)
    (h : DealReachable cfg deal) :
    deal.safetyOrderCount ≤ deal.maxSafetyOrders ∧
    (0 < deal.safetyOrderCount →
      deal.averagePrice = deal.totalInvested / deal.totalVolume) := by
  induction h with
  | base symbol close =>
    exact ⟨Nat.zero_le _, fun h0 => absurd h0 (Nat.lt_irrefl 0)⟩
  | safety deal close hr htp hsl hcount hnext ih =>
    exact ⟨hcount, fun _ => rfl⟩

/-- A deal reached by one base order at close 100 and one safety order at
close 97, under the default DCA configuration. -/
def exampleDeal : Deal :=
  addSafetyOrder {} (createBaseDeal {} "EURUSD" 100)
    (createSafetyOrder {} (createBaseDeal {} "EURUSD" 100) 97)

theorem reachable_deal_invariants_witness :
    exampleDeal.safetyOrderCount ≤ exampleDeal.maxSafetyOrders ∧
    (0 < exampleDeal.safetyOrderCount →
      exampleDeal.averagePrice = exampleDeal.totalInvested / exampleDeal.totalVolume) :=
  reachable_deal_invariants {} exampleDeal
    (DealReachable.safety (createBaseDeal {} "EURUSD" 100) 97
      (DealReachable.base "EURUSD" 100)
      (by norm_num [createBaseDeal])
      (by norm_num [stopLossHit, createBaseDeal])
      (by norm_num [createBaseDeal])
      (by norm_num [createBaseDeal, calculateNextSafetyOrderPrice, List.range_succ]))

end DCAStrategy

namespace GridStrategy

/-- C8: for gridLevels = 5, arithmetic grid type and bounds 0.95 and 1.05
times the center price, generateGridLevels produces exactly the five evenly
spaced prices from the lower to the upper bound (consecutive differences
all (upper - lower)/4, level 0 at the lower bound, level 4 at the upper
bound), and initializeGridOrders creates exactly 3 pending orders, at the
three interior levels and none at the bounds. -/
theorem scenarioC_grid (c : ℚ) :
    ((generateGridLevels { gridLevels := 5, centerPrice := c }
        ((95/100) * c) ((105/100) * c)).map GridLevel.price =
      [(95/100) * c,
       (95/100) * c + ((105/100) * c - (95/100) * c) / 4,
       (95/100) * c + 2 * (((105/100) * c - (95/100) * c) / 4),
       (95/100) * c + 3 * (((105/100) * c - (95/100) * c) / 4),
       (105/100) * c]) ∧
    ((initializeGridOrders { gridLevels := 5, centerPrice := c } "EURUSD"
        (generateGridLevels { gridLevels := 5, centerPrice := c }
          ((95/100) * c) ((105/100) * c))).map GridOrder.level = [1, 2, 3]) ∧
    ((initializeGridOrders { gridLevels := 5, centerPrice := c } "EURUSD"
        (generateGridLevels { gridLevels := 5, centerPrice := c }
          ((95/100) * c) ((105/100) * c))).all
      (fun o => o.status == "pending") = true) := by
  refine ⟨?_, ?_, ?_⟩
  · simp only [generateGridLevels, List.range_succ, List.range_zero,
      List.map_append, List.map_cons, List.map_nil, List.nil_append,
      List.cons_append]
    norm_num
    ring_nf
    norm_num
  · simp [generateGridLevels, initializeGridOrders, List.range_succ]
  · simp [generateGridLevels, initializeGridOrders, List.range_succ]

end GridStrategy
